import Mathlib

/-!
Shallow embedding of the engagement / ranking core of the guIA backend
(Go + GORM over PostgreSQL).  The relational store is modelled as a `DB`
record of row lists; every mutating operation is a function
`DB → Except Err Unit × DB` (error value together with the post-state:
the Go code returns errors before any write, and every multi-write path
runs in one transaction, so an error leaves the state unchanged).
`float64` rating averages are modelled as exact rationals, SQL
timestamps as integers (seconds).
-/

/-- Row of the `users` table; only the columns the verified operations
read or write are kept (`models.User`). -/
structure User where
  id : Nat
  isActive : Bool
  followersCount : Int
  followingCount : Int
  postsCount : Int
  itinerariesCount : Int
  deriving Repr, DecidableEq

/-- Row of the `posts` table (`models.Post`). -/
structure Post where
  id : Nat
  authorID : Nat
  isActive : Bool
  likesCount : Int
  commentsCount : Int
  createdAt : Int
  deriving Repr, DecidableEq

/-- Row of the `itineraries` table (`models.Itinerary`); `averageRating`
is a `float64` in Go, modelled as an exact rational. -/
structure Itinerary where
  id : Nat
  authorID : Nat
  category : String
  city : String
  country : String
  isPublic : Bool
  viewsCount : Int
  likesCount : Int
  ratingsCount : Int
  averageRating : ℚ
  createdAt : Int
  deriving Repr, DecidableEq

/-- Row of the `itinerary_ratings` table (`models.ItineraryRating`). -/
structure ItineraryRating where
  itineraryID : Nat
  userID : Nat
  rating : Int
  comment : String
  deriving Repr, DecidableEq

/-- The relational store: one list of rows per table.  `follows` holds
(followerID, followedID) pairs (`models.Follow`), `postLikes` holds
(userID, postID) pairs (`models.PostLike`).  Soft-deleted rows are
excluded by every GORM query, so the lists hold live rows only. -/
structure DB where
  users : List User
  follows : List (Nat × Nat)
  posts : List Post
  postLikes : List (Nat × Nat)
  itineraries : List Itinerary
  itineraryRatings : List ItineraryRating
  deriving Repr, DecidableEq

/-- Errors surfaced by the repository layer (gorm sentinel errors). -/
inductive RepoErr where
  /-- gorm.ErrRecordNotFound, returned by `First` on an empty result. -/
  | recordNotFound
  /-- gorm.ErrInvalidData, returned by `UserRepository.FollowUser` on a
  self-follow. -/
  | invalidData
  deriving Repr, DecidableEq

/-- Errors surfaced by the service layer; each constructor corresponds to
one `errors.New` message in the Go services. -/
inductive SvcErr where
  /-- Entity lookup failed: "usuário não encontrado", "post não
  encontrado", "roteiro não encontrado". -/
  | notFound
  /-- Follow self-check: "você não pode seguir a si mesmo". -/
  | selfReference
  /-- Duplicate follow: "você já está seguindo este usuário". -/
  | alreadyFollowing
  /-- Unfollow without an edge: "você não está seguindo este usuário". -/
  | notFollowing
  /-- Unfollow self-check: "operação inválida". -/
  | invalidOperation
  /-- Duplicate like: "você já curtiu este post". -/
  | alreadyLiked
  /-- Unlike without an edge: "você não curtiu este post". -/
  | notLiked
  /-- Rating a private itinerary: "não é possível avaliar roteiros
  privados". -/
  | forbidden
  /-- Score out of range: "avaliação deve estar entre 1 e 5". -/
  | invalidRange
  /-- Duplicate rating: "você já avaliou este roteiro". -/
  | alreadyRated
  /-- Wrapped repository error: "erro ao buscar ..." and similar. -/
  | storage
  deriving Repr, DecidableEq

/-- Bool-valued three-level lexicographic "may come first" relation built
from three sort keys, each taken descending except that equal triples
compare true both ways; this is the order produced by a SQL
`ORDER BY k1 DESC, k2 DESC, k3 DESC` clause. -/
def keyLe3 {α : Type} {κ₁ κ₂ κ₃ : Type} [LinearOrder κ₁] [LinearOrder κ₂]
    [LinearOrder κ₃] (k1 : α → κ₁) (k2 : α → κ₂) (k3 : α → κ₃)
    (a b : α) : Bool :=
  if k1 a = k1 b then
    if k2 a = k2 b then decide (k3 b ≤ k3 a)
    else decide (k2 b < k2 a)
  else decide (k1 b < k1 a)

theorem keyLe3_iff {α : Type} {κ₁ κ₂ κ₃ : Type} [LinearOrder κ₁]
    [LinearOrder κ₂] [LinearOrder κ₃] (k1 : α → κ₁) (k2 : α → κ₂)
    (k3 : α → κ₃) (a b : α) :
    keyLe3 k1 k2 k3 a b = true ↔
      k1 b < k1 a ∨ (k1 a = k1 b ∧
        (k2 b < k2 a ∨ (k2 a = k2 b ∧ k3 b ≤ k3 a))) := by
  unfold keyLe3
  split
  · rename_i h1
    split
    · rename_i h2
      simp [h1, h2, lt_irrefl]
    · rename_i h2
      simp only [decide_eq_true_eq]
      constructor
      · intro h
        exact Or.inr ⟨h1, Or.inl h⟩
      · rintro (h | ⟨-, h | ⟨he, -⟩⟩)
        · exact absurd h1 h.ne'
        · exact h
        · exact absurd he h2
  · rename_i h1
    simp only [decide_eq_true_eq]
    constructor
    · intro h
      exact Or.inl h
    · rintro (h | ⟨he, -⟩)
      · exact h
      · exact absurd he h1

theorem keyLe3_trans {α : Type} {κ₁ κ₂ κ₃ : Type} [LinearOrder κ₁]
    [LinearOrder κ₂] [LinearOrder κ₃] (k1 : α → κ₁) (k2 : α → κ₂)
    (k3 : α → κ₃) (a b c : α) (hab : keyLe3 k1 k2 k3 a b = true)
    (hbc : keyLe3 k1 k2 k3 b c = true) : keyLe3 k1 k2 k3 a c = true := by
  rw [keyLe3_iff] at hab hbc ⊢
  rcases hab with h1 | ⟨e1, h1⟩
  · rcases hbc with h2 | ⟨e2, h2⟩
    · exact Or.inl (h2.trans h1)
    · exact Or.inl (e2 ▸ h1)
  · rcases hbc with h2 | ⟨e2, h2⟩
    · exact Or.inl (e1 ▸ h2)
    · refine Or.inr ⟨e1.trans e2, ?_⟩
      rcases h1 with h1 | ⟨f1, h1⟩
      · rcases h2 with h2 | ⟨f2, h2⟩
        · exact Or.inl (h2.trans h1)
        · exact Or.inl (f2 ▸ h1)
      · rcases h2 with h2 | ⟨f2, h2⟩
        · exact Or.inl (f1 ▸ h2)
        · exact Or.inr ⟨f1.trans f2, h2.trans h1⟩

theorem keyLe3_total {α : Type} {κ₁ κ₂ κ₃ : Type} [LinearOrder κ₁]
    [LinearOrder κ₂] [LinearOrder κ₃] (k1 : α → κ₁) (k2 : α → κ₂)
    (k3 : α → κ₃) (a b : α) :
    (keyLe3 k1 k2 k3 a b || keyLe3 k1 k2 k3 b a) = true := by
  rcases lt_trichotomy (k1 a) (k1 b) with h1 | h1 | h1
  · simp only [Bool.or_eq_true, keyLe3_iff]
    exact Or.inr (Or.inl h1)
  · rcases lt_trichotomy (k2 a) (k2 b) with h2 | h2 | h2
    · simp only [Bool.or_eq_true, keyLe3_iff]
      exact Or.inr (Or.inr ⟨h1.symm, Or.inl h2⟩)
    · rcases le_total (k3 b) (k3 a) with h3 | h3
      · simp only [Bool.or_eq_true, keyLe3_iff]
        exact Or.inl (Or.inr ⟨h1, Or.inr ⟨h2, h3⟩⟩)
      · simp only [Bool.or_eq_true, keyLe3_iff]
        exact Or.inr (Or.inr ⟨h1.symm, Or.inr ⟨h2.symm, h3⟩⟩)
    · simp only [Bool.or_eq_true, keyLe3_iff]
      exact Or.inl (Or.inr ⟨h1, Or.inl h2⟩)
  · simp only [Bool.or_eq_true, keyLe3_iff]
    exact Or.inl (Or.inl h1)

/-- Sorting by a transitive, total comparator and then paginating yields
a list that is pairwise ordered by that comparator. -/
theorem pairwise_mergeSort_paginate {α : Type} (le : α → α → Bool)
    (htrans : ∀ a b c, le a b = true → le b c = true → le a c = true)
    (htotal : ∀ a b, (le a b || le b a) = true)
    (l : List α) (offset n : Nat) :
    (((l.mergeSort le).drop offset).take n).Pairwise
      (fun a b => le a b = true) := by
  have hs := @List.sorted_mergeSort _ le htrans htotal l
  exact List.Pairwise.sublist
    ((List.take_sublist _ _).trans (List.drop_sublist _ _)) hs

/-- Lookup of a `users` row by primary key, ignoring the `is_active`
filter; used only to state counter properties, not by any operation. -/
def DB.findUser (st : DB) (id : Nat) : Option User :=
  st.users.find? (fun u => u.id == id)

/-- Stored `followers_count` of the account with the given id (0 when the
account does not exist). -/
def DB.followersCountOf (st : DB) (id : Nat) : Int :=
  match st.findUser id with
  | some u => u.followersCount
  | none => 0

/-- Stored `following_count` of the account with the given id (0 when the
account does not exist). -/
def DB.followingCountOf (st : DB) (id : Nat) : Int :=
  match st.findUser id with
  | some u => u.followingCount
  | none => 0

/-- Lookup of a `posts` row by primary key, ignoring the `is_active`
filter; used only to state counter properties. -/
def DB.findPost (st : DB) (id : Nat) : Option Post :=
  st.posts.find? (fun p => p.id == id)

/-- Stored `likes_count` of the post with the given id (0 when the post
does not exist). -/
def DB.likesCountOf (st : DB) (id : Nat) : Int :=
  match st.findPost id with
  | some p => p.likesCount
  | none => 0

/-- Lookup of an `itineraries` row by primary key. -/
def DB.findItinerary (st : DB) (id : Nat) : Option Itinerary :=
  st.itineraries.find? (fun i => i.id == id)

/-- Stored `views_count` of the itinerary with the given id (0 when the
itinerary does not exist). -/
def DB.viewsCountOf (st : DB) (id : Nat) : Int :=
  match st.findItinerary id with
  | some i => i.viewsCount
  | none => 0

/-- Rating rows of one itinerary: the `WHERE itinerary_id = ?` row set
that `updateItineraryRatingStats` aggregates over. -/
def DB.ratingRowsFor (st : DB) (itineraryID : Nat) : List ItineraryRating :=
  st.itineraryRatings.filter (fun r => r.itineraryID == itineraryID)

/-- UserRepository.GetByID: `First` on `id = ? AND is_active = ?`. -/
def UserRepository.getByID (st : DB) (id : Nat) : Except RepoErr User :=
  match st.users.find? (fun u => u.id == id && u.isActive) with
  | none => .error .recordNotFound
  | some u => .ok u

/-- UserRepository.IsFollowing: `Count` over
`follower_id = ? AND followed_id = ?`, compared with 0. -/
def UserRepository.isFollowing (st : DB) (followerID followedID : Nat) : Bool :=
  st.follows.any (fun e => e.1 == followerID && e.2 == followedID)

/-- UserRepository.FollowUser: rejects a self-follow with
gorm.ErrInvalidData, otherwise inserts the follow edge and runs the two
atomic counter updates (`following_count + 1` on the follower row,
`followers_count + 1` on the followed row) in one transaction. -/
def UserRepository.followUser (st : DB) (followerID followedID : Nat) :
    Except RepoErr Unit × DB :=
  if followerID == followedID then (.error .invalidData, st)
  else
    (.ok (),
      { st with
        follows := (followerID, followedID) :: st.follows
        users :=
          (st.users.map (fun u =>
            if u.id == followerID then
              { u with followingCount := u.followingCount + 1 }
            else u)).map (fun u =>
              if u.id == followedID then
                { u with followersCount := u.followersCount + 1 }
              else u) })

/-- UserRepository.UnfollowUser: deletes the matching follow rows and
runs the two atomic counter decrements in one transaction (no
rows-affected guard). -/
def UserRepository.unfollowUser (st : DB) (followerID followedID : Nat) : DB :=
  { st with
    follows := st.follows.filter (fun e =>
      !(e.1 == followerID && e.2 == followedID))
    users :=
      (st.users.map (fun u =>
        if u.id == followerID then
          { u with followingCount := u.followingCount - 1 }
        else u)).map (fun u =>
          if u.id == followedID then
            { u with followersCount := u.followersCount - 1 }
          else u) }

/-- PostRepository.GetByID: `First` on `id = ? AND is_active = ?`. -/
def PostRepository.getByID (st : DB) (id : Nat) : Except RepoErr Post :=
  match st.posts.find? (fun p => p.id == id && p.isActive) with
  | none => .error .recordNotFound
  | some p => .ok p

/-- PostRepository.IsLiked: `Count` over `user_id = ? AND post_id = ?`,
compared with 0. -/
def PostRepository.isLiked (st : DB) (userID postID : Nat) : Bool :=
  st.postLikes.any (fun e => e.1 == userID && e.2 == postID)

/-- The atomic `likes_count = likes_count + delta` update on the post
row with the given id. -/
def bumpLikes (postID : Nat) (delta : Int) (p : Post) : Post :=
  if p.id == postID then { p with likesCount := p.likesCount + delta }
  else p

/-- PostRepository.LikePost: inside one transaction, a no-op when the
like row already exists, otherwise inserts the like row and runs the
atomic `likes_count + 1` update on the post. -/
def PostRepository.likePost (st : DB) (userID postID : Nat) : DB :=
  if st.postLikes.any (fun e => e.1 == userID && e.2 == postID) then st
  else
    { st with
      postLikes := (userID, postID) :: st.postLikes
      posts := st.posts.map (bumpLikes postID 1) }

/-- PostRepository.UnlikePost: inside one transaction, deletes the
matching like rows and runs the atomic `likes_count - 1` update only
when the delete reported at least one affected row. -/
def PostRepository.unlikePost (st : DB) (userID postID : Nat) : DB :=
  let remaining := st.postLikes.filter (fun e =>
    !(e.1 == userID && e.2 == postID))
  if remaining.length < st.postLikes.length then
    { st with
      postLikes := remaining
      posts := st.posts.map (bumpLikes postID (-1)) }
  else { st with postLikes := remaining }

/-- The `WHERE` clause of PostRepository.GetFeed: the author is in the
union of the viewer's followed set and the viewer itself, and the post
is active. -/
def PostRepository.feedWhere (st : DB) (userID : Nat) (p : Post) : Bool :=
  (st.follows.any (fun e => e.1 == userID && e.2 == p.authorID)
    || p.authorID == userID) && p.isActive

/-- Candidate row set of PostRepository.GetFeed, before ordering and
pagination. -/
def PostRepository.feedCandidates (st : DB) (userID : Nat) : List Post :=
  st.posts.filter (PostRepository.feedWhere st userID)

/-- The `ORDER BY created_at DESC` comparator of the feed query. -/
def createdAtDescLe (a b : Post) : Bool :=
  decide (b.createdAt ≤ a.createdAt)

/-- PostRepository.GetFeed: filter, order by `created_at DESC`, then
apply offset and limit. -/
def PostRepository.getFeed (st : DB) (userID : Nat) (limit offset : Nat) :
    List Post :=
  (((PostRepository.feedCandidates st userID).mergeSort
    createdAtDescLe).drop offset).take limit

/-- ItineraryRepository.GetByID: `First` on `id = ?` (soft-deleted rows
are excluded automatically by GORM). -/
def ItineraryRepository.getByID (st : DB) (id : Nat) : Except RepoErr Itinerary :=
  match st.itineraries.find? (fun i => i.id == id) with
  | none => .error .recordNotFound
  | some i => .ok i

/-- Trending window of the itinerary query, `INTERVAL '30 days'` in
seconds. -/
def thirtyDayWindow : Int := 30 * 86400

/-- Trending score of an itinerary:
`views_count + likes_count * 2 + ratings_count * 3`. -/
def trendScore (i : Itinerary) : Int :=
  i.viewsCount + i.likesCount * 2 + i.ratingsCount * 3

/-- The `ORDER BY (views_count + likes_count * 2 + ratings_count * 3)
DESC, average_rating DESC, created_at DESC` comparator of the trending
query. -/
def trendingLe : Itinerary → Itinerary → Bool :=
  keyLe3 trendScore Itinerary.averageRating Itinerary.createdAt

/-- ItineraryRepository.GetTrending: public itineraries with
`created_at > NOW() - INTERVAL '30 days'`, ordered by the trending
comparator, then offset and limit; `now` is the query timestamp. -/
def ItineraryRepository.getTrending (st : DB) (now : Int)
    (limit offset : Nat) : List Itinerary :=
  (((st.itineraries.filter (fun i =>
      i.isPublic && decide (now - thirtyDayWindow < i.createdAt))).mergeSort
    trendingLe).drop offset).take limit

/-- The `ORDER BY average_rating DESC, views_count DESC` comparator of
the similar-itineraries query (the third key is constant: ties are
unordered). -/
def similarLe : Itinerary → Itinerary → Bool :=
  keyLe3 Itinerary.averageRating Itinerary.viewsCount (fun _ => (0 : Int))

/-- The `WHERE` clause of ItineraryRepository.GetSimilar given the source
itinerary: a different id, a category, city or country match (inclusive
OR), and public visibility. -/
def ItineraryRepository.similarWhere (itineraryID : Nat) (orig : Itinerary)
    (i : Itinerary) : Bool :=
  !(i.id == itineraryID)
    && (i.category == orig.category || i.city == orig.city
        || i.country == orig.country)
    && i.isPublic

/-- ItineraryRepository.GetSimilar: loads the source itinerary with
`First` (gorm.ErrRecordNotFound when missing), then returns the matching
public itineraries ordered by `average_rating DESC, views_count DESC`,
capped at `limit`. -/
def ItineraryRepository.getSimilar (st : DB) (itineraryID : Nat)
    (limit : Nat) : Except RepoErr (List Itinerary) :=
  match st.itineraries.find? (fun i => i.id == itineraryID) with
  | none => .error .recordNotFound
  | some orig =>
    .ok (((st.itineraries.filter
      (ItineraryRepository.similarWhere itineraryID orig)).mergeSort
        similarLe).take limit)

/-- The recomputation helper `updateItineraryRatingStats`: counts the
rating rows of the itinerary, averages their scores when the count is
positive (0 otherwise), and writes both values back to the itinerary
row, all inside the caller's transaction. -/
def updateItineraryRatingStats (st : DB) (itineraryID : Nat) : DB :=
  let rows := st.ratingRowsFor itineraryID
  let ratingsCount : Int := rows.length
  let avgRating : ℚ :=
    if 0 < ratingsCount then
      ((rows.map (fun r => (r.rating : ℚ))).sum) / (ratingsCount : ℚ)
    else 0
  { st with
    itineraries := st.itineraries.map (fun i =>
      if i.id == itineraryID then
        { i with averageRating := avgRating, ratingsCount := ratingsCount }
      else i) }

/-- ItineraryRepository.RateItinerary: inside one transaction, inserts
the rating row and recomputes the itinerary's rating statistics. -/
def ItineraryRepository.rateItinerary (st : DB) (userID itineraryID : Nat)
    (rating : Int) (comment : String) : DB :=
  updateItineraryRatingStats
    { st with
      itineraryRatings :=
        ⟨itineraryID, userID, rating, comment⟩ :: st.itineraryRatings }
    itineraryID

/-- ItineraryRepository.GetUserRating: `First` on
`user_id = ? AND itinerary_id = ?`. -/
def ItineraryRepository.getUserRating (st : DB) (userID itineraryID : Nat) :
    Except RepoErr ItineraryRating :=
  match st.itineraryRatings.find? (fun r =>
      r.userID == userID && r.itineraryID == itineraryID) with
  | none => .error .recordNotFound
  | some r => .ok r

/-- ItineraryRepository.UpdateRating: inside one transaction, updates
the score and comment of the matching rating rows and recomputes the
itinerary's rating statistics. -/
def ItineraryRepository.updateRating (st : DB) (userID itineraryID : Nat)
    (rating : Int) (comment : String) : DB :=
  updateItineraryRatingStats
    { st with
      itineraryRatings := st.itineraryRatings.map (fun r =>
        if r.userID == userID && r.itineraryID == itineraryID then
          { r with rating := rating, comment := comment }
        else r) }
    itineraryID

/-- ItineraryRepository.DeleteRating: inside one transaction, deletes
the matching rating rows and recomputes the itinerary's rating
statistics. -/
def ItineraryRepository.deleteRating (st : DB) (userID itineraryID : Nat) : DB :=
  updateItineraryRatingStats
    { st with
      itineraryRatings := st.itineraryRatings.filter (fun r =>
        !(r.userID == userID && r.itineraryID == itineraryID)) }
    itineraryID

/-- The atomic `views_count = views_count + 1` update on the itinerary
row with the given id. -/
def bumpViews (itineraryID : Nat) (i : Itinerary) : Itinerary :=
  if i.id == itineraryID then { i with viewsCount := i.viewsCount + 1 }
  else i

/-- ItineraryRepository.IncrementViews: the atomic
`views_count = views_count + 1` update on the itinerary row. -/
def ItineraryRepository.incrementViews (st : DB) (id : Nat) : DB :=
  { st with itineraries := st.itineraries.map (bumpViews id) }

/-- UserService.FollowUser: self-check, existence check on the followed
account, duplicate-edge check, then the repository transaction. -/
def UserService.followUser (st : DB) (followerID followedID : Nat) :
    Except SvcErr Unit × DB :=
  if followerID == followedID then (.error .selfReference, st)
  else
    match UserRepository.getByID st followedID with
    | .error _ => (.error .notFound, st)
    | .ok _ =>
      if UserRepository.isFollowing st followerID followedID then
        (.error .alreadyFollowing, st)
      else
        match UserRepository.followUser st followerID followedID with
        | (.ok _, st1) => (.ok (), st1)
        | (.error _, st1) => (.error .storage, st1)

/-- UserService.UnfollowUser: self-check ("operação inválida"),
edge-existence check ("você não está seguindo este usuário"), then the
repository transaction. -/
def UserService.unfollowUser (st : DB) (followerID followedID : Nat) :
    Except SvcErr Unit × DB :=
  if followerID == followedID then (.error .invalidOperation, st)
  else if UserRepository.isFollowing st followerID followedID then
    (.ok (), UserRepository.unfollowUser st followerID followedID)
  else (.error .notFollowing, st)

/-- PostService.LikePost: post existence check, duplicate-like check,
then the repository transaction. -/
def PostService.likePost (st : DB) (userID postID : Nat) :
    Except SvcErr Unit × DB :=
  match PostRepository.getByID st postID with
  | .error _ => (.error .notFound, st)
  | .ok _ =>
    if PostRepository.isLiked st userID postID then (.error .alreadyLiked, st)
    else (.ok (), PostRepository.likePost st userID postID)

/-- PostService.UnlikePost: post existence check, like-existence check
("você não curtiu este post"), then the repository transaction. -/
def PostService.unlikePost (st : DB) (userID postID : Nat) :
    Except SvcErr Unit × DB :=
  match PostRepository.getByID st postID with
  | .error _ => (.error .notFound, st)
  | .ok _ =>
    if PostRepository.isLiked st userID postID then
      (.ok (), PostRepository.unlikePost st userID postID)
    else (.error .notLiked, st)

/-- PostService.GetFeed: normalizes an out-of-range limit to 20, then
runs the repository feed query (a pure read). -/
def PostService.getFeed (st : DB) (userID : Nat) (limit offset : Int) :
    List Post :=
  let l : Int := if limit ≤ 0 || 50 < limit then 20 else limit
  PostRepository.getFeed st userID l.toNat offset.toNat

/-- ItineraryService.GetItineraryByID: loads the itinerary, hides
private itineraries from non-authors (reported as not found), and
increments the view counter when the requester is not the author; the
response is built from the row as fetched. -/
def ItineraryService.getItineraryByID (st : DB)
    (itineraryID currentUserID : Nat) : Except SvcErr Itinerary × DB :=
  match ItineraryRepository.getByID st itineraryID with
  | .error _ => (.error .notFound, st)
  | .ok itinerary =>
    if !itinerary.isPublic && !(itinerary.authorID == currentUserID) then
      (.error .notFound, st)
    else if !(itinerary.authorID == currentUserID) then
      (.ok itinerary, ItineraryRepository.incrementViews st itineraryID)
    else (.ok itinerary, st)

/-- ItineraryService.RateItinerary: existence check, public-visibility
check, score range check (`validateRating`), duplicate-rating check,
then the repository transaction (the comment is trimmed). -/
def ItineraryService.rateItinerary (st : DB) (userID itineraryID : Nat)
    (rating : Int) (comment : String) : Except SvcErr Unit × DB :=
  match ItineraryRepository.getByID st itineraryID with
  | .error _ => (.error .notFound, st)
  | .ok itinerary =>
    if !itinerary.isPublic then (.error .forbidden, st)
    else if rating < 1 || 5 < rating then (.error .invalidRange, st)
    else
      match ItineraryRepository.getUserRating st userID itineraryID with
      | .ok _ => (.error .alreadyRated, st)
      | .error _ =>
        (.ok (),
          ItineraryRepository.rateItinerary st userID itineraryID rating
            comment.trim)

/-- ItineraryService.GetSimilarItineraries: normalizes an out-of-range
limit to 5 and runs the repository query, wrapping any repository error
as a generic service error ("erro ao buscar roteiros similares"). -/
def ItineraryService.getSimilarItineraries (st : DB) (itineraryID : Nat)
    (limit : Int) : Except SvcErr (List Itinerary) :=
  let l : Int := if limit ≤ 0 || 20 < limit then 5 else limit
  match ItineraryRepository.getSimilar st itineraryID l.toNat with
  | .error _ => .error .storage
  | .ok its => .ok its

/-- Finding a row by key commutes with a key-preserving row update. -/
theorem find?_key_map {α : Type} (key : α → Nat) (f : α → α) (us : List α)
    (hid : ∀ a, key (f a) = key a) (q : Nat) :
    (us.map f).find? (fun a => key a == q) =
      (us.find? (fun a => key a == q)).map f := by
  rw [List.find?_map]
  have hcomp : ((fun a => key a == q) ∘ f) = (fun a => key a == q) := by
    funext a
    simp only [Function.comp_apply, hid a]
  rw [hcomp]

/-- A membership test over a list from which every hit was just filtered
out is false. -/
theorem any_filter_not_self {α : Type} (l : List α) (p : α → Bool) :
    (l.filter (fun a => !(p a))).any p = false := by
  rw [List.any_eq_false]
  intro a ha
  have := (List.mem_filter.mp ha).2
  simp only [Bool.not_eq_true'] at this
  simp [this]

/-- C9: for every account A and store state, Follow(A,A) fails with the
self-reference error ("você não pode seguir a si mesmo") and returns the
state unchanged: no follow edge is created and no counter changes. -/
theorem followUser_self_reference (st : DB) (a : Nat) :
    UserService.followUser st a a = (.error .selfReference, st) := by
  simp [UserService.followUser]

/-- C8 counterexample: on an empty store no follow edge exists for the
pair (1, 1), yet Unfollow(1, 1) fails with the invalid-operation error
("operação inválida"), which is neither the not-following error ("você
não está seguindo este usuário", the spec's NotFoundError for unfollow)
nor the account-lookup NotFound error. -/
theorem unfollowUser_self_pair_not_notFound :
    UserRepository.isFollowing ⟨[], [], [], [], [], []⟩ 1 1 = false ∧
    (UserService.unfollowUser ⟨[], [], [], [], [], []⟩ 1 1).1 =
      .error .invalidOperation ∧
    SvcErr.invalidOperation ≠ SvcErr.notFollowing ∧
    SvcErr.invalidOperation ≠ SvcErr.notFound := by
  refine ⟨rfl, rfl, by decide, by decide⟩

/-- C8 (amended to pairs of distinct accounts): when followerID ≠
followedID and no follow edge exists for the pair, Unfollow fails with
the not-following error (the spec's NotFoundError) and leaves the state
— in particular both counters — unchanged; and after any successful
Unfollow of the pair, a second Unfollow fails that way. -/
theorem unfollowUser_no_edge_spec (st : DB) (A B : Nat) (hne : A ≠ B) :
    (UserRepository.isFollowing st A B = false →
      UserService.unfollowUser st A B = (.error .notFollowing, st)) ∧
    (∀ st1, UserService.unfollowUser st A B = (.ok (), st1) →
      UserService.unfollowUser st1 A B = (.error .notFollowing, st1)) := by
  have hAB : (A == B) = false := by
    simp [hne]
  constructor
  · intro hno
    unfold UserService.unfollowUser
    rw [if_neg (by simp [hAB]), if_neg (by simp [hno])]
  · intro st1 h1
    unfold UserService.unfollowUser at h1
    rw [if_neg (by simp [hAB])] at h1
    by_cases hf : UserRepository.isFollowing st A B = true
    · rw [if_pos hf] at h1
      have hst1 : st1 = UserRepository.unfollowUser st A B := by
        injection h1 with h1a h1b
        exact h1b.symm
      have hno1 : UserRepository.isFollowing st1 A B = false := by
        rw [hst1]
        unfold UserRepository.isFollowing UserRepository.unfollowUser
        exact any_filter_not_self st.follows
          (fun e => e.1 == A && e.2 == B)
      unfold UserService.unfollowUser
      rw [if_neg (by simp [hAB]), if_neg (by simp [hno1])]
    · rw [if_neg hf] at h1
      injection h1 with h1a h1b
      exact absurd h1a (by simp)

/-- C8 amended-claim witness at a concrete store: user 1 follows user 2,
unfollowing succeeds once and the second unfollow fails with the
not-following error. -/
theorem unfollowUser_no_edge_spec_witness :
    UserService.unfollowUser
        (UserService.unfollowUser
          ⟨[⟨1, true, 0, 1, 0, 0⟩, ⟨2, true, 1, 0, 0, 0⟩], [(1, 2)],
            [], [], [], []⟩ 1 2).2 1 2 =
      (.error .notFollowing,
        (UserService.unfollowUser
          ⟨[⟨1, true, 0, 1, 0, 0⟩, ⟨2, true, 1, 0, 0, 0⟩], [(1, 2)],
            [], [], [], []⟩ 1 2).2) := by
  exact (unfollowUser_no_edge_spec
    ⟨[⟨1, true, 0, 1, 0, 0⟩, ⟨2, true, 1, 0, 0, 0⟩], [(1, 2)],
      [], [], [], []⟩ 1 2 (by decide)).2 _ rfl

/-- Finding a user row by id commutes with two id-preserving row
updates. -/
theorem findUser_double_map (us : List User) (f g : User → User)
    (hf : ∀ u, (f u).id = u.id) (hg : ∀ u, (g u).id = u.id) (q : Nat) :
    ((us.map f).map g).find? (fun u => u.id == q)
      = ((us.find? (fun u => u.id == q)).map f).map g := by
  rw [find?_key_map (fun u : User => u.id) g _ hg q,
    find?_key_map (fun u : User => u.id) f _ hf q]

/-- Effect of the follow transaction on the follower row. -/
theorem repoFollow_findUser_A (st : DB) (A B : Nat) (uA : User)
    (hA : st.findUser A = some uA) (hAB : (A == B) = false) :
    ((UserRepository.followUser st A B).2).findUser A =
      some { uA with followingCount := uA.followingCount + 1 } := by
  have hA' : st.users.find? (fun u => u.id == A) = some uA := hA
  have hidA : (uA.id == A) = true := by
    have h0 := List.find?_some hA'
    simpa using h0
  have hidAB : (uA.id == B) = false := by
    have h1 : uA.id = A := by simpa using hidA
    simpa [h1] using hAB
  have heA : uA.id = A := by simpa using hidA
  have hneB : ¬uA.id = B := by simpa using hidAB
  have hABne : ¬A = B := by simpa using hAB
  rw [UserRepository.followUser, if_neg (by simp [hAB])]
  show List.find? _ _ = _
  rw [findUser_double_map _ _ _
    (by intro u; split <;> rfl)
    (by intro u; split <;> rfl) A, hA']
  simp [heA, hneB, hABne]

/-- Effect of the follow transaction on the followed row. -/
theorem repoFollow_findUser_B (st : DB) (A B : Nat) (uB : User)
    (hB : st.findUser B = some uB) (hAB : (A == B) = false) :
    ((UserRepository.followUser st A B).2).findUser B =
      some { uB with followersCount := uB.followersCount + 1 } := by
  have hB' : st.users.find? (fun u => u.id == B) = some uB := hB
  have hidB : (uB.id == B) = true := by
    have h0 := List.find?_some hB'
    simpa using h0
  have hidBA : (uB.id == A) = false := by
    have h1 : uB.id = B := by simpa using hidB
    have h2 : ¬A = B := by simpa using hAB
    simp [h1]
    omega
  have heB : uB.id = B := by simpa using hidB
  have hneA : ¬uB.id = A := by simpa using hidBA
  have hBAne : ¬B = A := by
    have h2 : ¬A = B := by simpa using hAB
    omega
  rw [UserRepository.followUser, if_neg (by simp [hAB])]
  show List.find? _ _ = _
  rw [findUser_double_map _ _ _
    (by intro u; split <;> rfl)
    (by intro u; split <;> rfl) B, hB']
  simp [heB, hneA, hBAne]

/-- Effect of the unfollow transaction on the follower row. -/
theorem repoUnfollow_findUser_A (st : DB) (A B : Nat) (uA : User)
    (hA : st.findUser A = some uA) (hAB : (A == B) = false) :
    (UserRepository.unfollowUser st A B).findUser A =
      some { uA with followingCount := uA.followingCount - 1 } := by
  have hA' : st.users.find? (fun u => u.id == A) = some uA := hA
  have hidA : (uA.id == A) = true := by
    have h0 := List.find?_some hA'
    simpa using h0
  have hidAB : (uA.id == B) = false := by
    have h1 : uA.id = A := by simpa using hidA
    simpa [h1] using hAB
  have heA : uA.id = A := by simpa using hidA
  have hneB : ¬uA.id = B := by simpa using hidAB
  have hABne : ¬A = B := by simpa using hAB
  rw [UserRepository.unfollowUser]
  show List.find? _ _ = _
  rw [findUser_double_map _ _ _
    (by intro u; split <;> rfl)
    (by intro u; split <;> rfl) A, hA']
  simp [heA, hneB, hABne]

/-- Effect of the unfollow transaction on the followed row. -/
theorem repoUnfollow_findUser_B (st : DB) (A B : Nat) (uB : User)
    (hB : st.findUser B = some uB) (hAB : (A == B) = false) :
    (UserRepository.unfollowUser st A B).findUser B =
      some { uB with followersCount := uB.followersCount - 1 } := by
  have hB' : st.users.find? (fun u => u.id == B) = some uB := hB
  have hidB : (uB.id == B) = true := by
    have h0 := List.find?_some hB'
    simpa using h0
  have hidBA : (uB.id == A) = false := by
    have h1 : uB.id = B := by simpa using hidB
    have h2 : ¬A = B := by simpa using hAB
    simp [h1]
    omega
  have heB : uB.id = B := by simpa using hidB
  have hneA : ¬uB.id = A := by simpa using hidBA
  have hBAne : ¬B = A := by
    have h2 : ¬A = B := by simpa using hAB
    omega
  rw [UserRepository.unfollowUser]
  show List.find? _ _ = _
  rw [findUser_double_map _ _ _
    (by intro u; split <;> rfl)
    (by intro u; split <;> rfl) B, hB']
  simp [heB, hneA, hBAne]

/-- C2: for accounts A and B present in the store, a successful
Follow(A,B) creates the follow edge and increases followingCount(A) and
followersCount(B) by exactly 1; the subsequent Unfollow(A,B) succeeds,
deletes the edge (the follow table returns to its prior contents) and
returns both counters to their values before the Follow. -/
theorem follow_then_unfollow_restores (st : DB) (A B : Nat) (uA uB : User)
    (hA : st.findUser A = some uA) (hB : st.findUser B = some uB)
    (st1 : DB) (hf : UserService.followUser st A B = (.ok (), st1)) :
    (A, B) ∈ st1.follows ∧
    st1.followingCountOf A = st.followingCountOf A + 1 ∧
    st1.followersCountOf B = st.followersCountOf B + 1 ∧
    (UserService.unfollowUser st1 A B).1 = .ok () ∧
    (UserService.unfollowUser st1 A B).2.follows = st.follows ∧
    (UserService.unfollowUser st1 A B).2.followingCountOf A
      = st.followingCountOf A ∧
    (UserService.unfollowUser st1 A B).2.followersCountOf B
      = st.followersCountOf B := by
  by_cases hAB : (A == B) = true
  · rw [UserService.followUser, if_pos hAB] at hf
    injection hf with hf1 hf2
    exact absurd hf1 (by simp)
  · have hABf : (A == B) = false := by simpa using hAB
    rw [UserService.followUser, if_neg (by simp [hABf])] at hf
    cases hget : UserRepository.getByID st B with
    | error e =>
      rw [hget] at hf
      injection hf with hf1 hf2
      exact absurd hf1 (by simp)
    | ok ub =>
      rw [hget] at hf
      by_cases hfol : UserRepository.isFollowing st A B = true
      · rw [if_pos hfol] at hf
        injection hf with hf1 hf2
        exact absurd hf1 (by simp)
      · have hfolf : UserRepository.isFollowing st A B = false := by
          simpa using hfol
        rw [if_neg hfol] at hf
        cases hrep : UserRepository.followUser st A B with
        | mk r st2 =>
          rw [hrep] at hf
          cases r with
          | error e =>
            injection hf with hf1 hf2
            exact absurd hf1 (by simp)
          | ok v =>
            injection hf with hf1 hf2
            subst hf2
            have hst : st2 = (UserRepository.followUser st A B).2 := by
              rw [hrep]
            have hfollows : st2.follows = (A, B) :: st.follows := by
              rw [hst, UserRepository.followUser, if_neg (by simp [hABf])]
            have hA2 : st2.findUser A
                = some { uA with followingCount := uA.followingCount + 1 } := by
              rw [hst]
              exact repoFollow_findUser_A st A B uA hA hABf
            have hB2 : st2.findUser B
                = some { uB with followersCount := uB.followersCount + 1 } := by
              rw [hst]
              exact repoFollow_findUser_B st A B uB hB hABf
            have hfol2 : UserRepository.isFollowing st2 A B = true := by
              simp [UserRepository.isFollowing, hfollows]
            have hunf : UserService.unfollowUser st2 A B
                = (.ok (), UserRepository.unfollowUser st2 A B) := by
              rw [UserService.unfollowUser, if_neg (by simp [hABf]),
                if_pos hfol2]
            have hanyf : st.follows.any
                (fun e => e.1 == A && e.2 == B) = false := hfolf
            have hall : ∀ e ∈ st.follows,
                (!(e.1 == A && e.2 == B)) = true := by
              intro e he
              have h0 := List.any_eq_false.mp hanyf e he
              simp only [Bool.not_eq_true', Bool.and_eq_false_iff]
              simp only [Bool.and_eq_true, not_and] at h0
              by_cases h1 : (e.1 == A) = true
              · exact Or.inr (by simpa using h0 h1)
              · exact Or.inl (by simpa using h1)
            refine ⟨?_, ?_, ?_, ?_, ?_, ?_, ?_⟩
            · rw [hfollows]
              exact List.mem_cons_self _ _
            · simp only [DB.followingCountOf, hA2, hA]
            · simp only [DB.followersCountOf, hB2, hB]
            · rw [hunf]
            · rw [hunf]
              show st2.follows.filter _ = st.follows
              rw [hfollows, List.filter_cons]
              simp only [BEq.refl, Bool.and_self, Bool.not_true,
                Bool.false_eq_true, if_false]
              exact List.filter_eq_self.mpr hall
            · rw [hunf]
              have h6 := repoUnfollow_findUser_A st2 A B _ hA2 hABf
              simp only [DB.followingCountOf, h6, hA]
              omega
            · rw [hunf]
              have h7 := repoUnfollow_findUser_B st2 A B _ hB2 hABf
              simp only [DB.followersCountOf, h7, hB]
              omega

/-- Two-account store used to witness the follow/unfollow round trip. -/
def followDemoDB : DB :=
  ⟨[⟨1, true, 5, 7, 0, 0⟩, ⟨2, true, 3, 4, 0, 0⟩], [], [], [], [], []⟩

/-- C2 witness at a concrete store: account 1 follows account 2 and then
unfollows, with both counters returning to their initial values. -/
theorem follow_then_unfollow_restores_witness :
    (1, 2) ∈ (UserService.followUser followDemoDB 1 2).2.follows ∧
    (UserService.followUser followDemoDB 1 2).2.followingCountOf 1
      = followDemoDB.followingCountOf 1 + 1 ∧
    (UserService.followUser followDemoDB 1 2).2.followersCountOf 2
      = followDemoDB.followersCountOf 2 + 1 ∧
    (UserService.unfollowUser
      (UserService.followUser followDemoDB 1 2).2 1 2).1 = .ok () ∧
    (UserService.unfollowUser
      (UserService.followUser followDemoDB 1 2).2 1 2).2.follows
        = followDemoDB.follows ∧
    (UserService.unfollowUser
      (UserService.followUser followDemoDB 1 2).2 1 2).2.followingCountOf 1
        = followDemoDB.followingCountOf 1 ∧
    (UserService.unfollowUser
      (UserService.followUser followDemoDB 1 2).2 1 2).2.followersCountOf 2
        = followDemoDB.followersCountOf 2 :=
  follow_then_unfollow_restores followDemoDB 1 2
    ⟨1, true, 5, 7, 0, 0⟩ ⟨2, true, 3, 4, 0, 0⟩ rfl rfl _ rfl

/-- Finding a row commutes with a row update that preserves the searched
predicate. -/
theorem find?_map_pres {α : Type} (p : α → Bool) (f : α → α) (l : List α)
    (hpf : ∀ a, p (f a) = p a) :
    (l.map f).find? p = (l.find? p).map f := by
  rw [List.find?_map]
  have hcomp : (p ∘ f) = p := by
    funext a
    simp only [Function.comp_apply, hpf a]
  rw [hcomp]

/-- The likes-count bump preserves the id-and-active lookup predicate. -/
theorem bumpLikes_pres (postID q : Nat) (d : Int) (a : Post) :
    ((bumpLikes postID d a).id == q && (bumpLikes postID d a).isActive)
      = (a.id == q && a.isActive) := by
  unfold bumpLikes
  split <;> rfl

/-- Bumping a post's likes count up and then down restores the row. -/
theorem bumpLikes_cancel (postID : Nat) (p : Post) :
    bumpLikes postID (-1) (bumpLikes postID 1 p) = p := by
  unfold bumpLikes
  by_cases hc : (p.id == postID) = true
  · simp [hc]
  · have hcf : (p.id == postID) = false := by simpa using hc
    simp [hcf]

/-- C6: Like then Unlike restores the whole store, so likesCount(P) in
particular; Unlike on an existing active post with no like edge fails
with the not-liked error ("você não curtiu este post") and leaves the
store unchanged; and at the repository level the likes_count decrement
never happens when the delete matched no like row. -/
theorem like_unlike_spec (st : DB) (U P : Nat) :
    (∀ st1, PostService.likePost st U P = (.ok (), st1) →
      PostService.unlikePost st1 U P = (.ok (), st) ∧
      (PostService.unlikePost st1 U P).2.likesCountOf P
        = st.likesCountOf P) ∧
    (PostRepository.isLiked st U P = false →
      (∀ p0, PostRepository.getByID st P = .ok p0 →
        PostService.unlikePost st U P = (.error .notLiked, st)) ∧
      PostRepository.unlikePost st U P = st) := by
  constructor
  · intro st1 hf
    rw [PostService.likePost] at hf
    cases hget : PostRepository.getByID st P with
    | error e =>
      rw [hget] at hf
      injection hf with hf1 hf2
      exact absurd hf1 (by simp)
    | ok p0 =>
      rw [hget] at hf
      by_cases hlk : PostRepository.isLiked st U P = true
      · rw [if_pos hlk] at hf
        injection hf with hf1 hf2
        exact absurd hf1 (by simp)
      · have hlkf : PostRepository.isLiked st U P = false := by simpa using hlk
        rw [if_neg hlk] at hf
        injection hf with hf1 hf2
        have hanyf : st.postLikes.any
            (fun e => e.1 == U && e.2 == P) = false := hlkf
        have hst1' : st1 = { st with
            postLikes := (U, P) :: st.postLikes
            posts := st.posts.map (bumpLikes P 1) } := by
          rw [← hf2, PostRepository.likePost, if_neg (by simp [hanyf])]
        have hget1 : PostRepository.getByID st1 P
            = .ok (bumpLikes P 1 p0) := by
          rw [PostRepository.getByID] at hget
          cases hg0 : st.posts.find? (fun p => p.id == P && p.isActive) with
          | none =>
            rw [hg0] at hget
            exact absurd hget (by simp)
          | some q =>
            rw [hg0] at hget
            have hq : q = p0 := by
              injection hget
            subst hq
            rw [PostRepository.getByID]
            have hfind : st1.posts.find? (fun p => p.id == P && p.isActive)
                = some (bumpLikes P 1 q) := by
              rw [hst1']
              show (st.posts.map (bumpLikes P 1)).find? _ = _
              rw [find?_map_pres _ _ _ (bumpLikes_pres P P 1), hg0]
              rfl
            rw [hfind]
        have hliked1 : PostRepository.isLiked st1 U P = true := by
          rw [hst1']
          simp [PostRepository.isLiked]
        have hall : ∀ e ∈ st.postLikes,
            (!(e.1 == U && e.2 == P)) = true := by
          intro e he
          have h0 := List.any_eq_false.mp hanyf e he
          simp only [Bool.not_eq_true', Bool.and_eq_false_iff]
          simp only [Bool.and_eq_true, not_and] at h0
          by_cases h1 : (e.1 == U) = true
          · exact Or.inr (by simpa using h0 h1)
          · exact Or.inl (by simpa using h1)
        have hrem : st1.postLikes.filter
            (fun e => !(e.1 == U && e.2 == P)) = st.postLikes := by
          rw [hst1']
          show List.filter _ ((U, P) :: st.postLikes) = st.postLikes
          rw [List.filter_cons]
          simp only [BEq.refl, Bool.and_self, Bool.not_true,
            Bool.false_eq_true, if_false]
          exact List.filter_eq_self.mpr hall
        have hposts : (st.posts.map (bumpLikes P 1)).map (bumpLikes P (-1))
            = st.posts := by
          rw [List.map_map]
          have hid : ∀ p ∈ st.posts,
              (bumpLikes P (-1) ∘ bumpLikes P 1) p = id p := by
            intro p hp
            simp only [Function.comp_apply, id_eq]
            exact bumpLikes_cancel P p
          rw [List.map_congr_left hid, List.map_id]
        have hunl : PostRepository.unlikePost st1 U P = st := by
          rw [PostRepository.unlikePost]
          show (if _ then _ else _) = st
          rw [hrem]
          rw [if_pos (by rw [hst1']; simp)]
          rw [hst1']
          show { st with postLikes := st.postLikes, posts := _ } = st
          rw [hposts]
        have hres : PostService.unlikePost st1 U P = (.ok (), st) := by
          rw [PostService.unlikePost, hget1, if_pos hliked1, hunl]
        exact ⟨hres, by rw [hres]⟩
  · intro hnl
    have hanyf : st.postLikes.any
        (fun e => e.1 == U && e.2 == P) = false := hnl
    have hall : ∀ e ∈ st.postLikes,
        (!(e.1 == U && e.2 == P)) = true := by
      intro e he
      have h0 := List.any_eq_false.mp hanyf e he
      simp only [Bool.not_eq_true', Bool.and_eq_false_iff]
      simp only [Bool.and_eq_true, not_and] at h0
      by_cases h1 : (e.1 == U) = true
      · exact Or.inr (by simpa using h0 h1)
      · exact Or.inl (by simpa using h1)
    have hrem : st.postLikes.filter
        (fun e => !(e.1 == U && e.2 == P)) = st.postLikes :=
      List.filter_eq_self.mpr hall
    constructor
    · intro p0 hget
      rw [PostService.unlikePost, hget, if_neg (by simp [hnl])]
    · rw [PostRepository.unlikePost]
      show (if _ then _ else _) = st
      rw [hrem]
      rw [if_neg (by simp)]

/-- One-post store used to witness the like/unlike round trip. -/
def likeDemoDB : DB := ⟨[], [], [⟨1, 2, true, 0, 0, 100⟩], [], [], []⟩

/-- C6 witness at a concrete store: user 3 likes post 1 and then unlikes
it, restoring the store; unliking without a like fails with the
not-liked error and changes nothing. -/
theorem like_unlike_spec_witness :
    (PostService.unlikePost (PostService.likePost likeDemoDB 3 1).2 3 1
        = (.ok (), likeDemoDB) ∧
      (PostService.unlikePost
        (PostService.likePost likeDemoDB 3 1).2 3 1).2.likesCountOf 1
        = likeDemoDB.likesCountOf 1) ∧
    (PostService.unlikePost likeDemoDB 3 1
        = (.error .notLiked, likeDemoDB) ∧
      PostRepository.unlikePost likeDemoDB 3 1 = likeDemoDB) :=
  ⟨(like_unlike_spec likeDemoDB 3 1).1 _ rfl,
    ⟨((like_unlike_spec likeDemoDB 3 1).2 rfl).1 ⟨1, 2, true, 0, 0, 100⟩ rfl,
      ((like_unlike_spec likeDemoDB 3 1).2 rfl).2⟩⟩

/-- Statement of the rating-statistics invariant for one itinerary: every
itinerary row with the given id stores the cardinality of its rating row
set as `ratingsCount` and the arithmetic mean of their scores (0 when no
ratings exist) as `averageRating`. -/
def ratingStatsOk (st : DB) (iid : Nat) : Prop :=
  ∀ i ∈ st.itineraries, i.id = iid →
    i.ratingsCount = ((st.ratingRowsFor iid).length : Int) ∧
    i.averageRating =
      (if (st.ratingRowsFor iid).length = 0 then 0
        else (((st.ratingRowsFor iid).map (fun r => (r.rating : ℚ))).sum)
          / ((st.ratingRowsFor iid).length : ℚ))

/-- The recomputation helper establishes the rating-statistics invariant
on every itinerary row with the recomputed id. -/
theorem updateItineraryRatingStats_ok (st : DB) (iid : Nat) :
    ratingStatsOk (updateItineraryRatingStats st iid) iid := by
  intro i hi hiid
  have hrows : (updateItineraryRatingStats st iid).ratingRowsFor iid
      = st.ratingRowsFor iid := rfl
  rw [hrows]
  simp only [updateItineraryRatingStats] at hi
  rw [List.mem_map] at hi
  obtain ⟨i0, hi0, hgi⟩ := hi
  by_cases hc : (i0.id == iid) = true
  · rw [if_pos hc] at hgi
    subst hgi
    constructor
    · rfl
    · show (if 0 < ((st.ratingRowsFor iid).length : Int) then _ else (0 : ℚ))
        = _
      by_cases hz : (st.ratingRowsFor iid).length = 0
      · rw [if_neg (by omega), if_pos hz]
      · rw [if_pos (by omega), if_neg hz]
        norm_cast
  · rw [if_neg hc] at hgi
    subst hgi
    exact absurd (by simpa using hiid) (by simpa using hc)

/-- C1: after RateItinerary, UpdateRating and DeleteRating (each of which
inserts, updates or deletes its rating row and then recomputes), every
itinerary row with the targeted id stores exactly the number of its
rating rows and the arithmetic mean of their scores, 0 when none
remain. -/
theorem rating_stats_recomputed (st : DB) (uid iid : Nat) (sc : Int)
    (c : String) :
    ratingStatsOk (ItineraryRepository.rateItinerary st uid iid sc c) iid ∧
    ratingStatsOk (ItineraryRepository.updateRating st uid iid sc c) iid ∧
    ratingStatsOk (ItineraryRepository.deleteRating st uid iid) iid :=
  ⟨updateItineraryRatingStats_ok _ iid, updateItineraryRatingStats_ok _ iid,
    updateItineraryRatingStats_ok _ iid⟩

/-- One-itinerary store with one pre-existing rating of score 2, used to
witness the rating-statistics invariant. -/
def ratingDemoDB : DB :=
  ⟨[], [], [], [], [⟨1, 2, "beach", "Rio", "BR", true, 10, 3, 1, 2, 500⟩],
    [⟨1, 5, 2, "meh"⟩]⟩

/-- C1 witness at a concrete store: after user 7 rates itinerary 1 with
score 4 the stored statistics are count 2 and mean 3. -/
theorem rating_stats_recomputed_witness :
    (⟨1, 2, "beach", "Rio", "BR", true, 10, 3, 2, (3 : ℚ), 500⟩
        : Itinerary).ratingsCount =
      (((ItineraryRepository.rateItinerary ratingDemoDB 7 1 4
        "legal").ratingRowsFor 1).length : Int) ∧
    (⟨1, 2, "beach", "Rio", "BR", true, 10, 3, 2, (3 : ℚ), 500⟩
        : Itinerary).averageRating =
      (if ((ItineraryRepository.rateItinerary ratingDemoDB 7 1 4
            "legal").ratingRowsFor 1).length = 0 then 0
        else ((((ItineraryRepository.rateItinerary ratingDemoDB 7 1 4
            "legal").ratingRowsFor 1).map (fun r => (r.rating : ℚ))).sum)
          / (((ItineraryRepository.rateItinerary ratingDemoDB 7 1 4
            "legal").ratingRowsFor 1).length : ℚ)) :=
  (rating_stats_recomputed ratingDemoDB 7 1 4 "legal").1
    ⟨1, 2, "beach", "Rio", "BR", true, 10, 3, 2, (3 : ℚ), 500⟩
    (by norm_num [ItineraryRepository.rateItinerary,
      updateItineraryRatingStats, DB.ratingRowsFor, ratingDemoDB]) rfl

/-- C7: RateItinerary fails with the not-found error when the itinerary
is missing; with the forbidden error when it exists but is private; with
the invalid-range error when it is public and the score is outside
[1,5]; with the already-rated error when a rating row for the pair
exists; and otherwise succeeds, running the repository transaction that
inserts the rating row.  Every failure leaves the store unchanged. -/
theorem rateItinerary_error_spec (st : DB) (uid iid : Nat) (sc : Int)
    (c : String) :
    (st.findItinerary iid = none →
      ItineraryService.rateItinerary st uid iid sc c
        = (.error .notFound, st)) ∧
    (∀ it, st.findItinerary iid = some it →
      (it.isPublic = false →
        ItineraryService.rateItinerary st uid iid sc c
          = (.error .forbidden, st)) ∧
      (it.isPublic = true → (sc < 1 ∨ 5 < sc) →
        ItineraryService.rateItinerary st uid iid sc c
          = (.error .invalidRange, st)) ∧
      (it.isPublic = true → 1 ≤ sc → sc ≤ 5 →
        (∀ r0, st.itineraryRatings.find?
            (fun r => r.userID == uid && r.itineraryID == iid) = some r0 →
          ItineraryService.rateItinerary st uid iid sc c
            = (.error .alreadyRated, st)) ∧
        (st.itineraryRatings.find?
            (fun r => r.userID == uid && r.itineraryID == iid) = none →
          ItineraryService.rateItinerary st uid iid sc c
            = (.ok (), ItineraryRepository.rateItinerary st uid iid sc
                c.trim) ∧
          (⟨iid, uid, sc, c.trim⟩ : ItineraryRating) ∈
            (ItineraryService.rateItinerary st uid iid sc
              c).2.itineraryRatings))) := by
  constructor
  · intro hnone
    have hget : ItineraryRepository.getByID st iid
        = .error .recordNotFound := by
      rw [ItineraryRepository.getByID]
      rw [show st.itineraries.find? (fun i => i.id == iid) = none from hnone]
    rw [ItineraryService.rateItinerary, hget]
  · intro it hsome
    have hget : ItineraryRepository.getByID st iid = .ok it := by
      rw [ItineraryRepository.getByID]
      rw [show st.itineraries.find? (fun i => i.id == iid) = some it
        from hsome]
    refine ⟨?_, ?_, ?_⟩
    · intro hpriv
      rw [ItineraryService.rateItinerary, hget]
      simp [hpriv]
    · intro hpub hrange
      have h1 : (sc < 1 || 5 < sc) = true := by
        rcases hrange with h | h <;> simp [h]
      rw [ItineraryService.rateItinerary, hget]
      simp [hpub, h1]
    · intro hpub hlo hhi
      have h1 : (sc < 1 || 5 < sc) = false := by
        simp
        omega
      constructor
      · intro r0 hr0
        have hur : ItineraryRepository.getUserRating st uid iid
            = .ok r0 := by
          rw [ItineraryRepository.getUserRating, hr0]
        rw [ItineraryService.rateItinerary, hget]
        simp [hpub, h1, hur]
      · intro hnor
        have hur : ItineraryRepository.getUserRating st uid iid
            = .error .recordNotFound := by
          rw [ItineraryRepository.getUserRating, hnor]
        have hres : ItineraryService.rateItinerary st uid iid sc c
            = (.ok (), ItineraryRepository.rateItinerary st uid iid sc
              c.trim) := by
          rw [ItineraryService.rateItinerary, hget]
          simp [hpub, h1, hur]
        refine ⟨hres, ?_⟩
        rw [hres]
        exact List.mem_cons_self _ _

/-- Store with a public itinerary 1 rated by user 5, and a private
itinerary 2, used to witness the rating error cascade. -/
def rateErrDemoDB : DB :=
  ⟨[], [], [], [],
    [⟨1, 2, "beach", "Rio", "BR", true, 0, 0, 1, 5, 500⟩,
      ⟨2, 2, "urban", "SP", "BR", false, 0, 0, 0, 0, 600⟩],
    [⟨1, 5, 5, "top"⟩]⟩

/-- C7 witness at a concrete store: the five branches of the cascade at
concrete inputs. -/
theorem rateItinerary_error_spec_witness :
    ItineraryService.rateItinerary rateErrDemoDB 5 9 4 ""
      = (.error .notFound, rateErrDemoDB) ∧
    ItineraryService.rateItinerary rateErrDemoDB 5 2 4 ""
      = (.error .forbidden, rateErrDemoDB) ∧
    ItineraryService.rateItinerary rateErrDemoDB 5 1 9 ""
      = (.error .invalidRange, rateErrDemoDB) ∧
    ItineraryService.rateItinerary rateErrDemoDB 5 1 4 ""
      = (.error .alreadyRated, rateErrDemoDB) ∧
    ItineraryService.rateItinerary rateErrDemoDB 7 1 4 " legal "
      = (.ok (), ItineraryRepository.rateItinerary rateErrDemoDB 7 1 4
          " legal ".trim) ∧
    (⟨1, 7, 4, " legal ".trim⟩ : ItineraryRating) ∈
      (ItineraryService.rateItinerary rateErrDemoDB 7 1 4
        " legal ").2.itineraryRatings :=
  ⟨(rateItinerary_error_spec rateErrDemoDB 5 9 4 "").1 rfl,
    ((rateItinerary_error_spec rateErrDemoDB 5 2 4 "").2
      ⟨2, 2, "urban", "SP", "BR", false, 0, 0, 0, 0, 600⟩ rfl).1 rfl,
    ((rateItinerary_error_spec rateErrDemoDB 5 1 9 "").2
      ⟨1, 2, "beach", "Rio", "BR", true, 0, 0, 1, 5, 500⟩ rfl).2.1 rfl
      (by omega),
    (((rateItinerary_error_spec rateErrDemoDB 5 1 4 "").2
      ⟨1, 2, "beach", "Rio", "BR", true, 0, 0, 1, 5, 500⟩ rfl).2.2 rfl
      (by omega) (by omega)).1 ⟨1, 5, 5, "top"⟩ rfl,
    ((((rateItinerary_error_spec rateErrDemoDB 7 1 4 " legal ").2
      ⟨1, 2, "beach", "Rio", "BR", true, 0, 0, 1, 5, 500⟩ rfl).2.2 rfl
      (by omega) (by omega)).2 rfl).1,
    ((((rateItinerary_error_spec rateErrDemoDB 7 1 4 " legal ").2
      ⟨1, 2, "beach", "Rio", "BR", true, 0, 0, 1, 5, 500⟩ rfl).2.2 rfl
      (by omega) (by omega)).2 rfl).2⟩

/-- Projection that zeroes the view counter, used to state that a state
change touched nothing but `views_count`. -/
def eraseViews (i : Itinerary) : Itinerary := { i with viewsCount := 0 }

/-- IncrementViews acts on itinerary lookups as a mapped counter bump. -/
theorem incrementViews_findItinerary (st : DB) (iid q : Nat) :
    (ItineraryRepository.incrementViews st iid).findItinerary q
      = (st.findItinerary q).map (bumpViews iid) := by
  show (st.itineraries.map (bumpViews iid)).find? _ = _
  exact find?_key_map (fun i : Itinerary => i.id) (bumpViews iid) _
    (fun a => by unfold bumpViews; split <;> rfl) q

/-- C10: GetItineraryByID on a visible itinerary succeeds returning the
row as fetched, and is not a pure read: when the requester is not the
author it bumps exactly that itinerary's `views_count` by 1, changing no
other column of any itinerary row and no view counter of any other id;
when the requester is the author the store is returned unchanged. -/
theorem getItineraryByID_views_effect (st : DB) (iid uid : Nat)
    (it : Itinerary) (hsome : st.findItinerary iid = some it)
    (hvis : it.isPublic = true ∨ it.authorID = uid) :
    (ItineraryService.getItineraryByID st iid uid).1 = .ok it ∧
    (it.authorID ≠ uid →
      (ItineraryService.getItineraryByID st iid uid).2.viewsCountOf iid
        = st.viewsCountOf iid + 1 ∧
      (ItineraryService.getItineraryByID st iid
          uid).2.itineraries.map eraseViews
        = st.itineraries.map eraseViews ∧
      (∀ q, q ≠ iid →
        (ItineraryService.getItineraryByID st iid uid).2.viewsCountOf q
          = st.viewsCountOf q)) ∧
    (it.authorID = uid →
      (ItineraryService.getItineraryByID st iid uid).2 = st) := by
  have hget : ItineraryRepository.getByID st iid = .ok it := by
    rw [ItineraryRepository.getByID]
    rw [show st.itineraries.find? (fun i => i.id == iid) = some it
      from hsome]
  have hitid : (it.id == iid) = true := by
    have h0 := List.find?_some (show List.find? (fun i => i.id == iid)
      st.itineraries = some it from hsome)
    simpa using h0
  by_cases hau : it.authorID = uid
  · have hres : ItineraryService.getItineraryByID st iid uid
        = (.ok it, st) := by
      rw [ItineraryService.getItineraryByID, hget]
      simp [hau]
    refine ⟨by rw [hres], ?_, fun _ => by rw [hres]⟩
    intro hne
    exact absurd hau hne
  · have hpub : it.isPublic = true := by
      rcases hvis with h | h
      · exact h
      · exact absurd h hau
    have hres : ItineraryService.getItineraryByID st iid uid
        = (.ok it, ItineraryRepository.incrementViews st iid) := by
      rw [ItineraryService.getItineraryByID, hget]
      simp [hau, hpub]
    refine ⟨by rw [hres], ?_, fun h => absurd h hau⟩
    intro _
    refine ⟨?_, ?_, ?_⟩
    · rw [hres]
      simp only [DB.viewsCountOf, incrementViews_findItinerary, hsome,
        Option.map_some']
      simp [bumpViews, hitid]
    · rw [hres]
      show (st.itineraries.map (bumpViews iid)).map eraseViews = _
      rw [List.map_map]
      refine List.map_congr_left ?_
      intro i hi
      show eraseViews (bumpViews iid i) = eraseViews i
      unfold bumpViews eraseViews
      split <;> rfl
    · intro q hq
      rw [hres]
      simp only [DB.viewsCountOf, incrementViews_findItinerary]
      cases hfq : st.findItinerary q with
      | none => rfl
      | some j =>
        have hjq : (j.id == q) = true := by
          have h0 := List.find?_some (show List.find? (fun i => i.id == q)
            st.itineraries = some j from hfq)
          simpa using h0
        have hjiid : (j.id == iid) = false := by
          have h1 : j.id = q := by simpa using hjq
          simp [h1]
          omega
        simp [bumpViews, hjiid]

/-- Store with one public itinerary used to witness the view-count side
effect of GetItineraryByID. -/
def viewsDemoDB : DB :=
  ⟨[], [], [], [], [⟨1, 2, "beach", "Rio", "BR", true, 10, 0, 0, 0, 500⟩],
    []⟩

/-- C10 witness at a concrete store: a non-author read of itinerary 1
succeeds and bumps its view counter from 10 to 11; an author read leaves
the store unchanged. -/
theorem getItineraryByID_views_effect_witness :
    (ItineraryService.getItineraryByID viewsDemoDB 1 7).1
        = .ok ⟨1, 2, "beach", "Rio", "BR", true, 10, 0, 0, 0, 500⟩ ∧
    (ItineraryService.getItineraryByID viewsDemoDB 1 7).2.viewsCountOf 1
        = viewsDemoDB.viewsCountOf 1 + 1 ∧
    (ItineraryService.getItineraryByID viewsDemoDB 1 2).2 = viewsDemoDB :=
  ⟨(getItineraryByID_views_effect viewsDemoDB 1 7
      ⟨1, 2, "beach", "Rio", "BR", true, 10, 0, 0, 0, 500⟩ rfl
      (Or.inl rfl)).1,
    (((getItineraryByID_views_effect viewsDemoDB 1 7
      ⟨1, 2, "beach", "Rio", "BR", true, 10, 0, 0, 0, 500⟩ rfl
      (Or.inl rfl)).2.1 (by decide)).1),
    ((getItineraryByID_views_effect viewsDemoDB 1 2
      ⟨1, 2, "beach", "Rio", "BR", true, 10, 0, 0, 0, 500⟩ rfl
      (Or.inl rfl)).2.2 rfl)⟩

/-- The feed `WHERE` clause holds exactly on active posts whose author is
the viewer or an account the viewer follows. -/
theorem feedWhere_iff (st : DB) (V : Nat) (p : Post) :
    PostRepository.feedWhere st V p = true ↔
      (p.isActive = true ∧
        (p.authorID = V ∨ (V, p.authorID) ∈ st.follows)) := by
  unfold PostRepository.feedWhere
  simp only [Bool.and_eq_true, Bool.or_eq_true, List.any_eq_true,
    beq_iff_eq, Bool.and_eq_true]
  constructor
  · rintro ⟨hdisj, hact⟩
    refine ⟨hact, ?_⟩
    rcases hdisj with ⟨e, he, h1, h2⟩ | h
    · refine Or.inr ?_
      have : e = (V, p.authorID) := by
        cases e
        simp_all
      rw [← this]
      exact he
    · exact Or.inl h
  · rintro ⟨hact, hdisj⟩
    refine ⟨?_, hact⟩
    rcases hdisj with h | h
    · exact Or.inr h
    · exact Or.inl ⟨(V, p.authorID), h, rfl, rfl⟩

/-- C3: every post GetFeed returns is active and authored by the viewer
or a followed account; the returned list is ordered by `created_at`
descending; and the candidate row set of the query is exactly the active
posts authored by the viewer or an account the viewer follows. -/
theorem getFeed_spec (st : DB) (V : Nat) (limit offset : Int) :
    (∀ p ∈ PostService.getFeed st V limit offset,
      p.isActive = true ∧
        (p.authorID = V ∨ (V, p.authorID) ∈ st.follows)) ∧
    (PostService.getFeed st V limit offset).Pairwise
      (fun a b => b.createdAt ≤ a.createdAt) ∧
    (∀ p, p ∈ PostRepository.feedCandidates st V ↔
      (p ∈ st.posts ∧ p.isActive = true ∧
        (p.authorID = V ∨ (V, p.authorID) ∈ st.follows))) := by
  have htrans : ∀ a b c : Post, createdAtDescLe a b = true →
      createdAtDescLe b c = true → createdAtDescLe a c = true := by
    intro a b c h1 h2
    simp only [createdAtDescLe, decide_eq_true_eq] at h1 h2 ⊢
    omega
  have htotal : ∀ a b : Post,
      (createdAtDescLe a b || createdAtDescLe b a) = true := by
    intro a b
    simp only [createdAtDescLe, Bool.or_eq_true, decide_eq_true_eq]
    omega
  have hsub : ∀ lm off : Nat, PostRepository.getFeed st V lm off |>.Sublist
      ((PostRepository.feedCandidates st V).mergeSort createdAtDescLe) := by
    intro lm off
    exact (List.take_sublist _ _).trans (List.drop_sublist _ _)
  refine ⟨?_, ?_, ?_⟩
  · intro p hp
    have hmem : p ∈ (PostRepository.feedCandidates st V).mergeSort
        createdAtDescLe :=
      (hsub _ _).mem hp
    have hc : p ∈ PostRepository.feedCandidates st V :=
      List.mem_mergeSort.mp hmem
    exact (feedWhere_iff st V p).mp (List.mem_filter.mp hc).2
  · have hp := pairwise_mergeSort_paginate createdAtDescLe htrans htotal
      (PostRepository.feedCandidates st V) offset.toNat
      (if limit ≤ 0 || 50 < limit then (20 : Int) else limit).toNat
    exact List.Pairwise.imp
      (fun h => by simpa [createdAtDescLe] using h) hp
  · intro p
    rw [PostRepository.feedCandidates, List.mem_filter, feedWhere_iff]

/-- Store with one followed author (2) and one stranger (3), used to
witness the feed query. -/
def feedDemoDB : DB :=
  ⟨[], [(1, 2)], [⟨10, 2, true, 0, 0, 100⟩, ⟨30, 3, true, 0, 0, 200⟩],
    [], [], []⟩

/-- C3 witness at a concrete store: the post of the followed author 2 is
an active feed row for viewer 1 and belongs to the candidate set; the
stranger's post does not. -/
theorem getFeed_spec_witness :
    ((⟨10, 2, true, 0, 0, 100⟩ : Post).isActive = true ∧
      ((⟨10, 2, true, 0, 0, 100⟩ : Post).authorID = 1 ∨
        (1, (⟨10, 2, true, 0, 0, 100⟩ : Post).authorID) ∈
          feedDemoDB.follows)) ∧
    (⟨10, 2, true, 0, 0, 100⟩ : Post) ∈
      PostRepository.feedCandidates feedDemoDB 1 ∧
    ¬((⟨30, 3, true, 0, 0, 200⟩ : Post) ∈
      PostRepository.feedCandidates feedDemoDB 1) :=
  ⟨(getFeed_spec feedDemoDB 1 20 0).1 _
      (by simp [PostService.getFeed, PostRepository.getFeed,
        PostRepository.feedCandidates, PostRepository.feedWhere,
        feedDemoDB, List.filter]),
    ((getFeed_spec feedDemoDB 1 20 0).2.2 _).mpr
      ⟨by decide, rfl, Or.inr (by decide)⟩,
    fun h => by
      rcases ((getFeed_spec feedDemoDB 1 20 0).2.2 _).mp h
        with ⟨-, -, h3 | h4⟩
      · exact absurd h3 (by decide)
      · exact absurd h4 (by decide)⟩

/-- C4: the trending candidate set is exactly the public itineraries
created within the last 30 days; every returned itinerary is such a
candidate; the output is ordered by the score
`views_count + likes_count * 2 + ratings_count * 3` descending, then
`average_rating` descending, then `created_at` descending; and at most
`limit` rows are returned after the offset is dropped. -/
theorem getTrending_spec (st : DB) (now : Int) (limit offset : Nat) :
    (∀ i, i ∈ st.itineraries.filter (fun i =>
        i.isPublic && decide (now - thirtyDayWindow < i.createdAt)) ↔
      (i ∈ st.itineraries ∧ i.isPublic = true ∧
        now - thirtyDayWindow < i.createdAt)) ∧
    (∀ i ∈ ItineraryRepository.getTrending st now limit offset,
      i.isPublic = true ∧ now - thirtyDayWindow < i.createdAt) ∧
    (ItineraryRepository.getTrending st now limit offset).Pairwise
      (fun a b => trendScore b < trendScore a ∨
        (trendScore a = trendScore b ∧
          (b.averageRating < a.averageRating ∨
            (a.averageRating = b.averageRating ∧
              b.createdAt ≤ a.createdAt)))) ∧
    (ItineraryRepository.getTrending st now limit offset).length
      ≤ limit := by
  have hfilter : ∀ i, i ∈ st.itineraries.filter (fun i =>
      i.isPublic && decide (now - thirtyDayWindow < i.createdAt)) ↔
      (i ∈ st.itineraries ∧ i.isPublic = true ∧
        now - thirtyDayWindow < i.createdAt) := by
    intro i
    rw [List.mem_filter]
    simp [Bool.and_eq_true]
  refine ⟨hfilter, ?_, ?_, ?_⟩
  · intro i hi
    have hmem : i ∈ (st.itineraries.filter (fun i =>
        i.isPublic && decide (now - thirtyDayWindow <
          i.createdAt))).mergeSort trendingLe :=
      ((List.take_sublist _ _).trans (List.drop_sublist _ _)).mem hi
    exact ((hfilter i).mp (List.mem_mergeSort.mp hmem)).2
  · have hp := pairwise_mergeSort_paginate trendingLe
      (keyLe3_trans trendScore Itinerary.averageRating Itinerary.createdAt)
      (keyLe3_total trendScore Itinerary.averageRating Itinerary.createdAt)
      (st.itineraries.filter (fun i =>
        i.isPublic && decide (now - thirtyDayWindow < i.createdAt)))
      offset limit
    exact List.Pairwise.imp (fun h => (keyLe3_iff _ _ _ _ _).mp h) hp
  · exact List.length_take_le _ _

/-- Store with one public recent itinerary and one private one, used to
witness the trending query at query time 2000. -/
def trendDemoDB : DB :=
  ⟨[], [], [], [], [⟨1, 2, "beach", "Rio", "BR", true, 10, 3, 2, 4, 1000⟩,
    ⟨2, 2, "urban", "SP", "BR", false, 50, 9, 9, 5, 1500⟩], []⟩

/-- C4 witness at a concrete store: the public recent itinerary is a
trending candidate, the private one is not, and the output respects the
limit. -/
theorem getTrending_spec_witness :
    (⟨1, 2, "beach", "Rio", "BR", true, 10, 3, 2, 4, 1000⟩ : Itinerary)
        ∈ trendDemoDB.itineraries.filter (fun i =>
          i.isPublic && decide (2000 - thirtyDayWindow < i.createdAt)) ∧
    ¬((⟨2, 2, "urban", "SP", "BR", false, 50, 9, 9, 5, 1500⟩ : Itinerary)
        ∈ trendDemoDB.itineraries.filter (fun i =>
          i.isPublic && decide (2000 - thirtyDayWindow < i.createdAt))) ∧
    (ItineraryRepository.getTrending trendDemoDB 2000 1 0).length ≤ 1 :=
  ⟨((getTrending_spec trendDemoDB 2000 1 0).1 _).mpr
      ⟨by simp [trendDemoDB], rfl, by norm_num [thirtyDayWindow]⟩,
    fun h => by
      rcases ((getTrending_spec trendDemoDB 2000 1 0).1 _).mp h
        with ⟨-, h2, -⟩
      exact absurd h2 (by decide),
    (getTrending_spec trendDemoDB 2000 1 0).2.2.2⟩

/-- The similar-itineraries `WHERE` clause holds exactly on public rows
other than the source whose category, city or country equals the
source's. -/
theorem similarWhere_iff (iid : Nat) (orig i : Itinerary) :
    ItineraryRepository.similarWhere iid orig i = true ↔
      (i.id ≠ iid ∧ (i.category = orig.category ∨ i.city = orig.city ∨
        i.country = orig.country) ∧ i.isPublic = true) := by
  unfold ItineraryRepository.similarWhere
  simp [Bool.and_eq_true, Bool.or_eq_true, and_assoc]
  tauto

/-- C5: GetSimilar fails with gorm's record-not-found error (the spec's
NotFoundError) when the source itinerary is missing; otherwise it
returns only public itineraries other than the source matching the
source's category, city or country (inclusive OR), ordered by
`average_rating` descending then `views_count` descending, with at most
`limit` rows. -/
theorem getSimilar_spec (st : DB) (iid : Nat) (limit : Nat) :
    (st.findItinerary iid = none →
      ItineraryRepository.getSimilar st iid limit
        = .error .recordNotFound) ∧
    (∀ orig, st.findItinerary iid = some orig →
      ∃ l, ItineraryRepository.getSimilar st iid limit = .ok l ∧
        (∀ i ∈ l, i.id ≠ iid ∧
          (i.category = orig.category ∨ i.city = orig.city ∨
            i.country = orig.country) ∧ i.isPublic = true) ∧
        l.Pairwise (fun a b => b.averageRating < a.averageRating ∨
          (a.averageRating = b.averageRating ∧
            b.viewsCount ≤ a.viewsCount)) ∧
        l.length ≤ limit) := by
  constructor
  · intro hnone
    rw [ItineraryRepository.getSimilar]
    rw [show st.itineraries.find? (fun i => i.id == iid) = none from hnone]
  · intro orig hsome
    have hok : ItineraryRepository.getSimilar st iid limit
        = .ok (((st.itineraries.filter
          (ItineraryRepository.similarWhere iid orig)).mergeSort
            similarLe).take limit) := by
      rw [ItineraryRepository.getSimilar]
      rw [show st.itineraries.find? (fun i => i.id == iid) = some orig
        from hsome]
    refine ⟨_, hok, ?_, ?_, ?_⟩
    · intro i hi
      have hmem : i ∈ (st.itineraries.filter
          (ItineraryRepository.similarWhere iid orig)).mergeSort
            similarLe :=
        (List.take_sublist _ _).mem hi
      exact (similarWhere_iff iid orig i).mp
        (List.mem_filter.mp (List.mem_mergeSort.mp hmem)).2
    · have hp := pairwise_mergeSort_paginate similarLe
        (keyLe3_trans Itinerary.averageRating Itinerary.viewsCount
          (fun _ => (0 : Int)))
        (keyLe3_total Itinerary.averageRating Itinerary.viewsCount
          (fun _ => (0 : Int)))
        (st.itineraries.filter
          (ItineraryRepository.similarWhere iid orig)) 0 limit
      rw [List.drop_zero] at hp
      refine List.Pairwise.imp ?_ hp
      intro a b h
      have h0 := (keyLe3_iff _ _ _ _ _).mp h
      rcases h0 with h1 | ⟨h1, h2 | ⟨h2, -⟩⟩
      · exact Or.inl h1
      · exact Or.inr ⟨h1, le_of_lt h2⟩
      · exact Or.inr ⟨h1, le_of_eq h2.symm⟩
    · exact List.length_take_le _ _

/-- Store with a source itinerary 1, a same-category itinerary 2 and an
unrelated private itinerary 3, used to witness the similarity query. -/
def simDemoDB : DB :=
  ⟨[], [], [], [],
    [⟨1, 2, "beach", "Rio", "BR", true, 10, 0, 0, 4, 500⟩,
      ⟨2, 4, "beach", "SP", "AR", true, 7, 0, 0, 3, 600⟩,
      ⟨3, 4, "beach", "SP", "AR", false, 7, 0, 0, 3, 600⟩], []⟩

/-- C5 witness at a concrete store: a missing source id fails with the
record-not-found error, and for source 1 the query returns exactly the
matching public itinerary 2. -/
theorem getSimilar_spec_witness :
    ItineraryRepository.getSimilar simDemoDB 9 5
        = .error .recordNotFound ∧
    ItineraryRepository.getSimilar simDemoDB 1 5
        = .ok [⟨2, 4, "beach", "SP", "AR", true, 7, 0, 0, 3, 600⟩] :=
  ⟨(getSimilar_spec simDemoDB 9 5).1 rfl,
    by
      rw [ItineraryRepository.getSimilar]
      rw [show simDemoDB.itineraries.find? (fun i => i.id == 1)
        = some ⟨1, 2, "beach", "Rio", "BR", true, 10, 0, 0, 4, 500⟩
        from rfl]
      show Except.ok (List.take 5 ((simDemoDB.itineraries.filter
          (ItineraryRepository.similarWhere 1
            ⟨1, 2, "beach", "Rio", "BR", true, 10, 0, 0, 4,
              500⟩)).mergeSort similarLe)) = _
      rw [show simDemoDB.itineraries.filter
          (ItineraryRepository.similarWhere 1
            ⟨1, 2, "beach", "Rio", "BR", true, 10, 0, 0, 4, 500⟩)
          = [⟨2, 4, "beach", "SP", "AR", true, 7, 0, 0, 3, 600⟩]
        from rfl]
      rw [List.mergeSort_singleton]
      rfl⟩
